import Mathlib

/-!
Shallow embedding of the DynamoDB-backed distributed lock manager
(`src/aws/dynamodb.go`, `src/aws/lock.go`).

The remote DynamoDB table and the process-local registry (`d.locks`) are both
modelled as maps from lock id to an optional record.  Wall-clock reads
(`time.Now().UnixNano() / int64(time.Millisecond)`) become explicit `now`
parameters; the UUIDv7 record-version generator and the random shard become
explicit parameters.  Conditional writes are modelled with a small condition
expression language mirroring the AWS `expression` builder, evaluated against
the stored item with DynamoDB semantics (a comparison against a missing item or
attribute fails; `attribute_not_exists` on a missing item succeeds).

A race between a contender's read and its conditional write is modelled by
giving each operation two remote states: the table as seen by the strongly
consistent read, and the table at the moment the conditional write executes.
A transport failure of a write is modelled by a boolean flag; the conditional
check of a write failing yields the store's conditional-check-failed error,
which the Go code either translates (`LockConditionalUpdateFailedError`) or
surfaces raw, exactly as in the source.
-/

/-- Mirror of `Lock` in `src/aws/lock.go`.  The `Data interface{}` payload is
opaque to the manager (it is JSON-serialized on write and deserialized on
read); it is modelled as a `String`. -/
structure Lock where
  ID : String
  Owner : String
  LeaseDurationMilliseconds : Int
  LastUpdatedTimeMilliseconds : Int
  RecordVersionNumber : String
  Shard : Int
  TTLEpochSeconds : Int
  CreatedAtMilliseconds : Int
  Data : String
deriving DecidableEq, Repr

/-- Mirror of `NewLock` in `src/aws/lock.go`. -/
def NewLock (ID Owner : String) (LeaseDurationMilliseconds LastUpdatedTimeMilliseconds : Int)
    (RecordVersionNumber : String) (Shard TTLEpochSeconds CreatedAtMilliseconds : Int)
    (Data : String) : Lock :=
  { ID := ID
    Owner := Owner
    LeaseDurationMilliseconds := LeaseDurationMilliseconds
    LastUpdatedTimeMilliseconds := LastUpdatedTimeMilliseconds
    RecordVersionNumber := RecordVersionNumber
    Shard := Shard
    TTLEpochSeconds := TTLEpochSeconds
    CreatedAtMilliseconds := CreatedAtMilliseconds
    Data := Data }

/-- Mirror of `Lock.IsExpired` in `src/aws/lock.go`:
`nowMilliseconds - l.LastUpdatedTimeMilliseconds > l.LeaseDurationMilliseconds`. -/
def Lock.IsExpired (l : Lock) (nowMilliseconds : Int) : Bool :=
  decide (nowMilliseconds - l.LastUpdatedTimeMilliseconds > l.LeaseDurationMilliseconds)

/-- Mirror of `DynamoDBLockConfig` in `src/aws/dynamodb.go`. -/
structure DynamoDBLockConfig where
  Owner : String
  MaxShards : Int
  LeaseDurationSeconds : Int
  HeartbeatIntervalSeconds : Int
deriving DecidableEq, Repr

/-- The Go errors declared at the top of `src/aws/dynamodb.go`, plus the two
kinds of raw backing-store errors a write can produce. -/
inductive LockError
  | notFound
  | heartbeatFailed
  | releaseFailed
  | conditionalUpdateFailed
  | abandoned
  | currentlyUnavailable
  | conditionalCheckFailed
  | transportError
deriving DecidableEq, Repr

/-- DynamoDB attribute values used by the lock table (string, number, bytes). -/
inductive AttrVal
  | S (v : String)
  | N (v : Int)
  | B (v : String)
deriving DecidableEq, Repr

/-- Condition expressions, mirroring the AWS `expression` builder combinators
the lock manager uses: `Equal`, `NotEqual`, `LessThan`, `AttributeNotExists`,
`And`, `Or`. -/
inductive CondExpr
  | attrEq (name : String) (v : AttrVal)
  | attrNe (name : String) (v : AttrVal)
  | attrLt (name : String) (v : AttrVal)
  | attrNotExists (name : String)
  | and (a b : CondExpr)
  | or (a b : CondExpr)
deriving DecidableEq, Repr

/-- Mirror of `lockToDynamoDBAttributeValues` in `src/aws/dynamodb.go`,
viewed as the stored item's attribute map. -/
def lockToDynamoDBAttributeValues (lock : Lock) : String → Option AttrVal :=
  fun name =>
    if name = "LockID" then some (.S lock.ID)
    else if name = "Owner" then some (.S lock.Owner)
    else if name = "LeaseDurationMilliseconds" then some (.N lock.LeaseDurationMilliseconds)
    else if name = "LastUpdatedTimeMilliseconds" then some (.N lock.LastUpdatedTimeMilliseconds)
    else if name = "RecordVersionNumber" then some (.S lock.RecordVersionNumber)
    else if name = "Data" then some (.B lock.Data)
    else if name = "Shard" then some (.N lock.Shard)
    else if name = "TTL" then some (.N lock.TTLEpochSeconds)
    else if name = "CreatedAtMilliseconds" then some (.N lock.CreatedAtMilliseconds)
    else none

/-- DynamoDB evaluation of a condition expression against the stored item at
the written key (`none` when the item does not exist).  A comparison against a
missing item or attribute, or between distinct types, fails;
`attribute_not_exists` succeeds on a missing item or attribute. -/
def evalCondExpr (item : Option Lock) : CondExpr → Bool
  | .attrEq name v =>
      match item with
      | none => false
      | some l =>
        match lockToDynamoDBAttributeValues l name with
        | some w => decide (w = v)
        | none => false
  | .attrNe name v =>
      match item with
      | none => false
      | some l =>
        match lockToDynamoDBAttributeValues l name, v with
        | some (.S a), .S b => decide (a ≠ b)
        | some (.N a), .N b => decide (a ≠ b)
        | some (.B a), .B b => decide (a ≠ b)
        | _, _ => false
  | .attrLt name v =>
      match item with
      | none => false
      | some l =>
        match lockToDynamoDBAttributeValues l name, v with
        | some (.N a), .N b => decide (a < b)
        | _, _ => false
  | .attrNotExists name =>
      match item with
      | none => true
      | some l => (lockToDynamoDBAttributeValues l name).isNone
  | .and a b => evalCondExpr item a && evalCondExpr item b
  | .or a b => evalCondExpr item a || evalCondExpr item b

/-- A map from lock id to optional record: used both for the remote DynamoDB
table and for the process-local registry `d.locks`. -/
def Table : Type := String → Option Lock

/-- Store a record under a key. -/
def tableInsert (t : Table) (key : String) (l : Lock) : Table :=
  fun x => if x = key then some l else t x

/-- Remove a key from a map (`delete(d.locks, id)` / `DeleteItem`). -/
def tableErase (t : Table) (key : String) : Table :=
  fun x => if x = key then none else t x

/-- The remote calls an operation issues, in order. -/
inductive StoreRequest
  | getItem (key : String)
  | putItem (key : String) (cond : CondExpr) (item : Lock)
  | deleteItem (key : String) (cond : CondExpr)
deriving DecidableEq, Repr

/-- `int64(d.Config.LeaseDurationSeconds) * int64(time.Second) / int64(time.Millisecond)`
as computed at the top of `updateExistingLock` and `putNewLock`. -/
def configLeaseDurationMilliseconds (cfg : DynamoDBLockConfig) : Int :=
  cfg.LeaseDurationSeconds * 1000000000 / 1000000

/-- The condition built at `src/aws/dynamodb.go:407-411`:
`RecordVersionNumber = existing.RecordVersionNumber AND
 (Owner = existing.Owner OR (Owner <> existing.Owner AND
  LastUpdatedTimeMilliseconds < nowMilliseconds - leaseDurationMilliseconds))`. -/
def updateExistingLockCondition (existingLock : Lock)
    (nowMilliseconds leaseDurationMilliseconds : Int) : CondExpr :=
  let conditionSameRecordVersionNumber :=
    CondExpr.attrEq "RecordVersionNumber" (.S existingLock.RecordVersionNumber)
  let conditionSameOwner := CondExpr.attrEq "Owner" (.S existingLock.Owner)
  let conditionDifferentOwner := CondExpr.attrNe "Owner" (.S existingLock.Owner)
  let conditionExpired :=
    CondExpr.attrLt "LastUpdatedTimeMilliseconds"
      (.N (nowMilliseconds - leaseDurationMilliseconds))
  .and conditionSameRecordVersionNumber
    (.or conditionSameOwner (.and conditionDifferentOwner conditionExpired))

/-- The condition built in `putNewLock`: `attribute_not_exists(LockID)`. -/
def putNewLockCondition : CondExpr :=
  CondExpr.attrNotExists "LockID"

/-- The condition built in `releaseLock` (`src/aws/dynamodb.go:517-519`):
`RecordVersionNumber = existing.RecordVersionNumber AND Owner = d.Config.Owner`. -/
def releaseLockCondition (cfg : DynamoDBLockConfig) (existingLock : Lock) : CondExpr :=
  .and (CondExpr.attrEq "RecordVersionNumber" (.S existingLock.RecordVersionNumber))
    (CondExpr.attrEq "Owner" (.S cfg.Owner))

/-- Result of an internal write helper: the registry, the remote table, the
value returned by the Go function, and the remote calls issued. -/
structure UpdateResult where
  locks : Table
  remote : Table
  result : Except LockError Lock
  requests : List StoreRequest

/-- The `newLock` built at `src/aws/dynamodb.go:382-400`: new owner and
record version, fresh `LastUpdatedTimeMilliseconds` and `TTL`, while `ID`,
`Shard` and `CreatedAtMilliseconds` are copied from the existing record.
`newTtl := nowMilliseconds/1000 + 10*leaseDurationMilliseconds/1000`. -/
def updateExistingLockNewLock (cfg : DynamoDBLockConfig) (existingLock : Lock)
    (newData : String) (nowMilliseconds : Int) (newRecordVersionNumber : String) : Lock :=
  let leaseDurationMilliseconds := configLeaseDurationMilliseconds cfg
  let newTtl := nowMilliseconds / 1000 + 10 * leaseDurationMilliseconds / 1000
  NewLock existingLock.ID cfg.Owner leaseDurationMilliseconds
    nowMilliseconds newRecordVersionNumber existingLock.Shard newTtl
    existingLock.CreatedAtMilliseconds newData

/-- Mirror of `updateExistingLock` in `src/aws/dynamodb.go:375-445`.
`remote` is the table at the moment the conditional `PutItem` executes;
`newRecordVersionNumber` stands for `uuid.NewV7()`; `transportFail` models a
non-conditional-check `PutItem` failure.  On success the new record is stored
remotely and in `d.locks`; a conditional-check failure is returned as
`LockConditionalUpdateFailedError`. -/
def updateExistingLock (cfg : DynamoDBLockConfig) (locks remote : Table)
    (existingLock : Lock) (newData : String) (nowMilliseconds : Int)
    (newRecordVersionNumber : String) (transportFail : Bool) : UpdateResult :=
  let newLock := updateExistingLockNewLock cfg existingLock newData
    nowMilliseconds newRecordVersionNumber
  let condition := updateExistingLockCondition existingLock nowMilliseconds
    (configLeaseDurationMilliseconds cfg)
  let requests := [StoreRequest.putItem existingLock.ID condition newLock]
  if transportFail then
    { locks := locks, remote := remote, result := .error .transportError, requests := requests }
  else if evalCondExpr (remote existingLock.ID) condition then
    { locks := tableInsert locks existingLock.ID newLock
      remote := tableInsert remote existingLock.ID newLock
      result := .ok newLock
      requests := requests }
  else
    { locks := locks, remote := remote
      result := .error .conditionalUpdateFailed, requests := requests }

/-- The `lock` built at `src/aws/dynamodb.go:453-472`:
`ttl := nowMilliseconds/1000 + int64(cfg.LeaseDurationSeconds)*10`, and both
`LastUpdatedTimeMilliseconds` and `CreatedAtMilliseconds` set to now. -/
def putNewLockRecord (cfg : DynamoDBLockConfig) (id data : String)
    (nowMilliseconds : Int) (recordVersionNumber : String) (shard : Int) : Lock :=
  let leaseDurationMilliseconds := configLeaseDurationMilliseconds cfg
  let ttl := nowMilliseconds / 1000 + cfg.LeaseDurationSeconds * 10
  NewLock id cfg.Owner leaseDurationMilliseconds nowMilliseconds
    recordVersionNumber shard ttl nowMilliseconds data

/-- Mirror of `putNewLock` in `src/aws/dynamodb.go:447-504`.  `shard` stands
for `rand.Intn(d.Config.MaxShards)`.  Note the Go code returns any `PutItem`
error raw — a conditional-check failure is NOT translated here. -/
def putNewLock (cfg : DynamoDBLockConfig) (locks remote : Table) (id data : String)
    (nowMilliseconds : Int) (recordVersionNumber : String) (shard : Int)
    (transportFail : Bool) : UpdateResult :=
  let lock := putNewLockRecord cfg id data nowMilliseconds recordVersionNumber shard
  let requests := [StoreRequest.putItem id putNewLockCondition lock]
  if transportFail then
    { locks := locks, remote := remote, result := .error .transportError, requests := requests }
  else if evalCondExpr (remote id) putNewLockCondition then
    { locks := tableInsert locks id lock
      remote := tableInsert remote id lock
      result := .ok lock
      requests := requests }
  else
    { locks := locks, remote := remote
      result := .error .conditionalCheckFailed, requests := requests }

/-- The record `getLock` (`src/aws/dynamodb.go:277-373`) reconstructs from the
item's attributes and the requested id. -/
def lockFromItem (id : String) (item : Lock) : Lock :=
  NewLock id item.Owner item.LeaseDurationMilliseconds item.LastUpdatedTimeMilliseconds
    item.RecordVersionNumber item.Shard item.TTLEpochSeconds item.CreatedAtMilliseconds
    item.Data

/-- Mirror of `getLock`: a strongly consistent `GetItem`; when a record is
found it is ALSO stored into the local registry (`d.locks[id] = *newLock`)
before being returned. -/
def getLock (locks remote : Table) (id : String) :
    Table × Option Lock × List StoreRequest :=
  match remote id with
  | none => (locks, none, [StoreRequest.getItem id])
  | some item =>
    let newLock := lockFromItem id item
    (tableInsert locks id newLock, some newLock, [StoreRequest.getItem id])

/-- Result of `Acquire`: the registry, the remote table after the operation,
the `(*Lock, error)` pair the Go method returns, and the remote calls issued. -/
structure AcquireResult where
  locks : Table
  remote : Table
  lock : Option Lock
  err : Option LockError
  requests : List StoreRequest

/-- Mirror of `Acquire` in `src/aws/dynamodb.go:159-207`.  `remoteAtRead` is
the table seen by the read, `remoteAtWrite` the table when the conditional
write (if any) executes; they differ exactly when a concurrent writer
intervened. -/
def Acquire (cfg : DynamoDBLockConfig) (locks remoteAtRead remoteAtWrite : Table)
    (id data : String) (nowMilliseconds : Int) (newRecordVersionNumber : String)
    (shard : Int) (transportFail : Bool) : AcquireResult :=
  match getLock locks remoteAtRead id with
  | (locks1, some existingLock, reqs) =>
    if existingLock.IsExpired nowMilliseconds = false then
      { locks := locks1, remote := remoteAtWrite, lock := some existingLock
        err := some .currentlyUnavailable, requests := reqs }
    else
      let u := updateExistingLock cfg locks1 remoteAtWrite existingLock data
        nowMilliseconds newRecordVersionNumber transportFail
      match u.result with
      | .ok newLock =>
        { locks := u.locks, remote := u.remote, lock := some newLock
          err := none, requests := reqs ++ u.requests }
      | .error e =>
        if e = .conditionalUpdateFailed then
          { locks := tableErase locks1 id, remote := u.remote, lock := none
            err := some .currentlyUnavailable, requests := reqs ++ u.requests }
        else
          { locks := locks1, remote := u.remote, lock := none
            err := some e, requests := reqs ++ u.requests }
  | (locks1, none, reqs) =>
    let u := putNewLock cfg locks1 remoteAtWrite id data nowMilliseconds
      newRecordVersionNumber shard transportFail
    match u.result with
    | .ok lock =>
      { locks := u.locks, remote := u.remote, lock := some lock
        err := none, requests := reqs ++ u.requests }
    | .error e =>
      { locks := u.locks, remote := u.remote, lock := none
        err := some e, requests := reqs ++ u.requests }

/-- Result of `Heartbeat` / `Release`: the Go methods return a single `error`
value, possibly a `multierror`; it is modelled as the list of accumulated
errors, `[]` standing for `nil`. -/
structure OpResult where
  locks : Table
  remote : Table
  errs : List LockError
  requests : List StoreRequest

/-- `const abandonLockAfterMilliseconds = 5 * 60 * 1000` in `Heartbeat`. -/
def abandonLockAfterMilliseconds : Int := 5 * 60 * 1000

/-- The `newData` chosen by `Heartbeat` (`src/aws/dynamodb.go:230-235`): the
caller's new payload when given, otherwise the existing lock's payload. -/
def heartbeatNewData (maybeNewData : Option String) (existingLock : Lock) : String :=
  match maybeNewData with
  | some d => d
  | none => existingLock.Data

/-- Mirror of `Heartbeat` in `src/aws/dynamodb.go:209-256`.  `nowAbandonCheck`
and `nowMilliseconds` are the two separate `time.Now()` reads (line 225 and
line 238).  No remote read happens: the lock comes from the local registry. -/
def Heartbeat (cfg : DynamoDBLockConfig) (locks remote : Table) (id : String)
    (maybeNewData : Option String) (nowAbandonCheck nowMilliseconds : Int)
    (newRecordVersionNumber : String) (transportFail : Bool) : OpResult :=
  match locks id with
  | none => { locks := locks, remote := remote, errs := [.notFound], requests := [] }
  | some existingLock =>
    if existingLock.CreatedAtMilliseconds < nowAbandonCheck - abandonLockAfterMilliseconds then
      { locks := locks, remote := remote, errs := [.abandoned], requests := [] }
    else
      let newData := heartbeatNewData maybeNewData existingLock
      let u := updateExistingLock cfg locks remote existingLock newData
        nowMilliseconds newRecordVersionNumber transportFail
      match u.result with
      | .ok _ =>
        { locks := u.locks, remote := u.remote, errs := [], requests := u.requests }
      | .error e =>
        if e = .conditionalUpdateFailed then
          { locks := tableErase locks id, remote := u.remote
            errs := [.currentlyUnavailable], requests := u.requests }
        else
          { locks := locks, remote := u.remote
            errs := [e, .heartbeatFailed], requests := u.requests }

/-- One lock's processing inside the background heartbeat loop
(`src/aws/dynamodb.go:119-134`): call `Heartbeat` with no new data; if the
resulting error is `LockAbandonedError`, delete the registry entry. -/
def heartbeatTickForLock (cfg : DynamoDBLockConfig) (locks remote : Table) (id : String)
    (nowAbandonCheck nowMilliseconds : Int) (newRecordVersionNumber : String)
    (transportFail : Bool) : OpResult :=
  let r := Heartbeat cfg locks remote id none nowAbandonCheck nowMilliseconds
    newRecordVersionNumber transportFail
  if LockError.abandoned ∈ r.errs then
    { r with locks := tableErase r.locks id }
  else r

/-- Mirror of `releaseLock` in `src/aws/dynamodb.go:506-544`: the local entry
is deleted FIRST, then the conditional `DeleteItem` is issued; any delete
error is returned as-is. -/
def releaseLock (cfg : DynamoDBLockConfig) (locks remote : Table)
    (existingLock : Lock) (transportFail : Bool) :
    Table × Table × Option LockError × List StoreRequest :=
  let locks1 := tableErase locks existingLock.ID
  let condition := releaseLockCondition cfg existingLock
  let requests := [StoreRequest.deleteItem existingLock.ID condition]
  if transportFail then
    (locks1, remote, some .transportError, requests)
  else if evalCondExpr (remote existingLock.ID) condition then
    (locks1, tableErase remote existingLock.ID, none, requests)
  else
    (locks1, remote, some .conditionalCheckFailed, requests)

/-- Mirror of `Release` in `src/aws/dynamodb.go:258-275`: no local entry means
`LockNotFoundError` with no remote call; otherwise `releaseLock`, whose error
(if any) is wrapped together with `LockReleaseFailedError`. -/
def Release (cfg : DynamoDBLockConfig) (locks remote : Table) (id : String)
    (transportFail : Bool) : OpResult :=
  match locks id with
  | none => { locks := locks, remote := remote, errs := [.notFound], requests := [] }
  | some existingLock =>
    match releaseLock cfg locks remote existingLock transportFail with
    | (locks1, remote1, none, reqs) =>
      { locks := locks1, remote := remote1, errs := [], requests := reqs }
    | (locks1, remote1, some e, reqs) =>
      { locks := locks1, remote := remote1, errs := [e, .releaseFailed], requests := reqs }

/-! Test fixtures: concrete configurations, records and tables used by the
closed witness and counterexample theorems below. -/

/-- A process with owner id `"A"` and the default configuration
(`max_shards 2`, `lease_duration_s 10`, `heartbeat_interval_s 3`). -/
def cfgA : DynamoDBLockConfig :=
  { Owner := "A", MaxShards := 2, LeaseDurationSeconds := 10, HeartbeatIntervalSeconds := 3 }

/-- A remote record held by process `"B"`: written at time 0 with a 10000 ms
lease, record version `"v1"`, shard 1. -/
def recB : Lock := NewLock "job-1" "B" 10000 0 "v1" 1 100 0 "d"

/-- A remote table holding `recB` under `"job-1"`. -/
def remB : Table := fun x => if x = "job-1" then some recB else none

/-- The empty table. -/
def emptyT : Table := fun _ => none

/-- A's local registry entry for `"job-1"`: acquired at time 0. -/
def recA : Lock := NewLock "job-1" "A" 10000 0 "v1" 1 100 0 "d"

/-- A's local registry holding `recA` under `"job-1"`. -/
def regA : Table := fun x => if x = "job-1" then some recA else none

/-! Helper lemmas about the embedded definitions. -/

theorem lockAttr_LockID (l : Lock) :
    lockToDynamoDBAttributeValues l "LockID" = some (.S l.ID) := rfl

theorem lockAttr_Owner (l : Lock) :
    lockToDynamoDBAttributeValues l "Owner" = some (.S l.Owner) := rfl

theorem lockAttr_RecordVersionNumber (l : Lock) :
    lockToDynamoDBAttributeValues l "RecordVersionNumber" = some (.S l.RecordVersionNumber) := rfl

theorem lockAttr_LastUpdatedTimeMilliseconds (l : Lock) :
    lockToDynamoDBAttributeValues l "LastUpdatedTimeMilliseconds" =
      some (.N l.LastUpdatedTimeMilliseconds) := rfl

theorem evalCondExpr_updateCondition (s existingLock : Lock) (nowMs leaseMs : Int) :
    evalCondExpr (some s) (updateExistingLockCondition existingLock nowMs leaseMs) =
      decide (s.RecordVersionNumber = existingLock.RecordVersionNumber ∧
        (s.Owner = existingLock.Owner ∨
          (s.Owner ≠ existingLock.Owner ∧
            s.LastUpdatedTimeMilliseconds < nowMs - leaseMs))) := by
  by_cases h1 : s.RecordVersionNumber = existingLock.RecordVersionNumber <;>
    by_cases h2 : s.Owner = existingLock.Owner <;>
      by_cases h3 : s.LastUpdatedTimeMilliseconds < nowMs - leaseMs <;>
        simp [updateExistingLockCondition, evalCondExpr, lockAttr_RecordVersionNumber,
          lockAttr_Owner, lockAttr_LastUpdatedTimeMilliseconds, h1, h2, h3]

theorem evalCondExpr_updateCondition_none (existingLock : Lock) (nowMs leaseMs : Int) :
    evalCondExpr none (updateExistingLockCondition existingLock nowMs leaseMs) = false := rfl

theorem evalCondExpr_releaseCondition (s : Lock) (cfg : DynamoDBLockConfig)
    (existingLock : Lock) :
    evalCondExpr (some s) (releaseLockCondition cfg existingLock) =
      decide (s.RecordVersionNumber = existingLock.RecordVersionNumber ∧
        s.Owner = cfg.Owner) := by
  by_cases h1 : s.RecordVersionNumber = existingLock.RecordVersionNumber <;>
    by_cases h2 : s.Owner = cfg.Owner <;>
      simp [releaseLockCondition, evalCondExpr, lockAttr_RecordVersionNumber,
        lockAttr_Owner, h1, h2]

theorem evalCondExpr_putNewCondition_some (s : Lock) :
    evalCondExpr (some s) putNewLockCondition = false := rfl

theorem evalCondExpr_putNewCondition_none :
    evalCondExpr none putNewLockCondition = true := rfl

theorem getLock_none {remote : Table} {id : String} (locks : Table)
    (h : remote id = none) :
    getLock locks remote id = (locks, none, [StoreRequest.getItem id]) := by
  simp [getLock, h]

theorem getLock_some {remote : Table} {id : String} {item : Lock} (locks : Table)
    (h : remote id = some item) :
    getLock locks remote id =
      (tableInsert locks id (lockFromItem id item), some (lockFromItem id item),
        [StoreRequest.getItem id]) := by
  simp [getLock, h]

theorem updateExistingLock_requests (cfg : DynamoDBLockConfig) (locks remote : Table)
    (existingLock : Lock) (newData : String) (nowMilliseconds : Int)
    (newRecordVersionNumber : String) (transportFail : Bool) :
    (updateExistingLock cfg locks remote existingLock newData nowMilliseconds
      newRecordVersionNumber transportFail).requests =
      [StoreRequest.putItem existingLock.ID
        (updateExistingLockCondition existingLock nowMilliseconds
          (configLeaseDurationMilliseconds cfg))
        (updateExistingLockNewLock cfg existingLock newData nowMilliseconds
          newRecordVersionNumber)] := by
  simp only [updateExistingLock]
  split
  · rfl
  · split <;> rfl

theorem updateExistingLock_success (cfg : DynamoDBLockConfig) (locks remote : Table)
    (existingLock : Lock) (newData : String) (nowMilliseconds : Int)
    (newRecordVersionNumber : String)
    (hc : evalCondExpr (remote existingLock.ID)
      (updateExistingLockCondition existingLock nowMilliseconds
        (configLeaseDurationMilliseconds cfg)) = true) :
    updateExistingLock cfg locks remote existingLock newData nowMilliseconds
      newRecordVersionNumber false =
      { locks := tableInsert locks existingLock.ID
          (updateExistingLockNewLock cfg existingLock newData nowMilliseconds
            newRecordVersionNumber)
        remote := tableInsert remote existingLock.ID
          (updateExistingLockNewLock cfg existingLock newData nowMilliseconds
            newRecordVersionNumber)
        result := .ok (updateExistingLockNewLock cfg existingLock newData nowMilliseconds
          newRecordVersionNumber)
        requests := [StoreRequest.putItem existingLock.ID
          (updateExistingLockCondition existingLock nowMilliseconds
            (configLeaseDurationMilliseconds cfg))
          (updateExistingLockNewLock cfg existingLock newData nowMilliseconds
            newRecordVersionNumber)] } := by
  simp [updateExistingLock, hc]

theorem updateExistingLock_condFail (cfg : DynamoDBLockConfig) (locks remote : Table)
    (existingLock : Lock) (newData : String) (nowMilliseconds : Int)
    (newRecordVersionNumber : String)
    (hc : evalCondExpr (remote existingLock.ID)
      (updateExistingLockCondition existingLock nowMilliseconds
        (configLeaseDurationMilliseconds cfg)) = false) :
    updateExistingLock cfg locks remote existingLock newData nowMilliseconds
      newRecordVersionNumber false =
      { locks := locks, remote := remote
        result := .error .conditionalUpdateFailed
        requests := [StoreRequest.putItem existingLock.ID
          (updateExistingLockCondition existingLock nowMilliseconds
            (configLeaseDurationMilliseconds cfg))
          (updateExistingLockNewLock cfg existingLock newData nowMilliseconds
            newRecordVersionNumber)] } := by
  simp [updateExistingLock, hc]

theorem updateExistingLock_transport (cfg : DynamoDBLockConfig) (locks remote : Table)
    (existingLock : Lock) (newData : String) (nowMilliseconds : Int)
    (newRecordVersionNumber : String) :
    updateExistingLock cfg locks remote existingLock newData nowMilliseconds
      newRecordVersionNumber true =
      { locks := locks, remote := remote
        result := .error .transportError
        requests := [StoreRequest.putItem existingLock.ID
          (updateExistingLockCondition existingLock nowMilliseconds
            (configLeaseDurationMilliseconds cfg))
          (updateExistingLockNewLock cfg existingLock newData nowMilliseconds
            newRecordVersionNumber)] } := by
  simp [updateExistingLock]

theorem putNewLock_success (cfg : DynamoDBLockConfig) (locks remote : Table)
    (id data : String) (nowMilliseconds : Int) (recordVersionNumber : String)
    (shard : Int) (hc : remote id = none) :
    putNewLock cfg locks remote id data nowMilliseconds recordVersionNumber shard false =
      { locks := tableInsert locks id
          (putNewLockRecord cfg id data nowMilliseconds recordVersionNumber shard)
        remote := tableInsert remote id
          (putNewLockRecord cfg id data nowMilliseconds recordVersionNumber shard)
        result := .ok (putNewLockRecord cfg id data nowMilliseconds recordVersionNumber shard)
        requests := [StoreRequest.putItem id putNewLockCondition
          (putNewLockRecord cfg id data nowMilliseconds recordVersionNumber shard)] } := by
  simp [putNewLock, hc, evalCondExpr_putNewCondition_none]

theorem putNewLock_condFail (cfg : DynamoDBLockConfig) (locks remote : Table)
    (id data : String) (nowMilliseconds : Int) (recordVersionNumber : String)
    (shard : Int) (s : Lock) (hc : remote id = some s) :
    putNewLock cfg locks remote id data nowMilliseconds recordVersionNumber shard false =
      { locks := locks, remote := remote
        result := .error .conditionalCheckFailed
        requests := [StoreRequest.putItem id putNewLockCondition
          (putNewLockRecord cfg id data nowMilliseconds recordVersionNumber shard)] } := by
  simp [putNewLock, hc, evalCondExpr_putNewCondition_some]

theorem lockFromItem_fields (id : String) (item : Lock) :
    (lockFromItem id item).ID = id ∧
    (lockFromItem id item).Owner = item.Owner ∧
    (lockFromItem id item).LeaseDurationMilliseconds = item.LeaseDurationMilliseconds ∧
    (lockFromItem id item).LastUpdatedTimeMilliseconds = item.LastUpdatedTimeMilliseconds ∧
    (lockFromItem id item).RecordVersionNumber = item.RecordVersionNumber ∧
    (lockFromItem id item).Shard = item.Shard ∧
    (lockFromItem id item).CreatedAtMilliseconds = item.CreatedAtMilliseconds := by
  exact ⟨rfl, rfl, rfl, rfl, rfl, rfl, rfl⟩

/-- In a run without concurrent interference, a contender's conditional update
of the very record it just read always passes its condition: the stored record
version and owner are the ones the condition was built from. -/
theorem evalCondExpr_updateCondition_self (r : Lock) (id : String) (nowMs leaseMs : Int) :
    evalCondExpr (some r) (updateExistingLockCondition (lockFromItem id r) nowMs leaseMs) =
      true := by
  rw [evalCondExpr_updateCondition]
  simp [lockFromItem, NewLock]


/-! Path lemmas: one equation per control-flow path of `Acquire`, `Heartbeat`
and `Release`, each giving the full result structure. -/

theorem Acquire_absent_success (cfg : DynamoDBLockConfig) (locks remR remW : Table)
    (id data : String) (now : Int) (rvn : String) (shard : Int)
    (hrem : remR id = none) (hw : remW id = none) :
    Acquire cfg locks remR remW id data now rvn shard false =
      { locks := tableInsert locks id (putNewLockRecord cfg id data now rvn shard)
        remote := tableInsert remW id (putNewLockRecord cfg id data now rvn shard)
        lock := some (putNewLockRecord cfg id data now rvn shard)
        err := none
        requests := [StoreRequest.getItem id,
          StoreRequest.putItem id putNewLockCondition
            (putNewLockRecord cfg id data now rvn shard)] } := by
  simp only [Acquire, getLock_none locks hrem,
    putNewLock_success cfg locks remW id data now rvn shard hw]
  rfl

theorem Acquire_absent_raced (cfg : DynamoDBLockConfig) (locks remR remW : Table)
    (id data : String) (now : Int) (rvn : String) (shard : Int) (s : Lock)
    (hrem : remR id = none) (hw : remW id = some s) :
    Acquire cfg locks remR remW id data now rvn shard false =
      { locks := locks
        remote := remW
        lock := none
        err := some .conditionalCheckFailed
        requests := [StoreRequest.getItem id,
          StoreRequest.putItem id putNewLockCondition
            (putNewLockRecord cfg id data now rvn shard)] } := by
  simp only [Acquire, getLock_none locks hrem,
    putNewLock_condFail cfg locks remW id data now rvn shard s hw]
  rfl

theorem Acquire_live (cfg : DynamoDBLockConfig) (locks remR remW : Table)
    (id data : String) (now : Int) (rvn : String) (shard : Int) (tf : Bool) (r : Lock)
    (hrem : remR id = some r) (hexp : (lockFromItem id r).IsExpired now = false) :
    Acquire cfg locks remR remW id data now rvn shard tf =
      { locks := tableInsert locks id (lockFromItem id r)
        remote := remW
        lock := some (lockFromItem id r)
        err := some .currentlyUnavailable
        requests := [StoreRequest.getItem id] } := by
  simp only [Acquire, getLock_some locks hrem]
  rw [if_pos hexp]

theorem Acquire_expired_success (cfg : DynamoDBLockConfig) (locks remR remW : Table)
    (id data : String) (now : Int) (rvn : String) (shard : Int) (r : Lock)
    (hrem : remR id = some r) (hexp : (lockFromItem id r).IsExpired now = true)
    (hc : evalCondExpr (remW id)
      (updateExistingLockCondition (lockFromItem id r) now
        (configLeaseDurationMilliseconds cfg)) = true) :
    Acquire cfg locks remR remW id data now rvn shard false =
      { locks := tableInsert (tableInsert locks id (lockFromItem id r)) id
          (updateExistingLockNewLock cfg (lockFromItem id r) data now rvn)
        remote := tableInsert remW id
          (updateExistingLockNewLock cfg (lockFromItem id r) data now rvn)
        lock := some (updateExistingLockNewLock cfg (lockFromItem id r) data now rvn)
        err := none
        requests := [StoreRequest.getItem id,
          StoreRequest.putItem id
            (updateExistingLockCondition (lockFromItem id r) now
              (configLeaseDurationMilliseconds cfg))
            (updateExistingLockNewLock cfg (lockFromItem id r) data now rvn)] } := by
  have h1 := updateExistingLock_success cfg (tableInsert locks id (lockFromItem id r)) remW
    (lockFromItem id r) data now rvn hc
  simp only [Acquire, getLock_some locks hrem]
  rw [if_neg (by simp [hexp])]
  rw [h1]
  rfl

theorem Acquire_expired_condFail (cfg : DynamoDBLockConfig) (locks remR remW : Table)
    (id data : String) (now : Int) (rvn : String) (shard : Int) (r : Lock)
    (hrem : remR id = some r) (hexp : (lockFromItem id r).IsExpired now = true)
    (hc : evalCondExpr (remW id)
      (updateExistingLockCondition (lockFromItem id r) now
        (configLeaseDurationMilliseconds cfg)) = false) :
    Acquire cfg locks remR remW id data now rvn shard false =
      { locks := tableErase (tableInsert locks id (lockFromItem id r)) id
        remote := remW
        lock := none
        err := some .currentlyUnavailable
        requests := [StoreRequest.getItem id,
          StoreRequest.putItem id
            (updateExistingLockCondition (lockFromItem id r) now
              (configLeaseDurationMilliseconds cfg))
            (updateExistingLockNewLock cfg (lockFromItem id r) data now rvn)] } := by
  have h1 := updateExistingLock_condFail cfg (tableInsert locks id (lockFromItem id r)) remW
    (lockFromItem id r) data now rvn hc
  simp only [Acquire, getLock_some locks hrem]
  rw [if_neg (by simp [hexp])]
  rw [h1]
  rfl

theorem Acquire_expired_transport (cfg : DynamoDBLockConfig) (locks remR remW : Table)
    (id data : String) (now : Int) (rvn : String) (shard : Int) (r : Lock)
    (hrem : remR id = some r) (hexp : (lockFromItem id r).IsExpired now = true) :
    Acquire cfg locks remR remW id data now rvn shard true =
      { locks := tableInsert locks id (lockFromItem id r)
        remote := remW
        lock := none
        err := some .transportError
        requests := [StoreRequest.getItem id,
          StoreRequest.putItem id
            (updateExistingLockCondition (lockFromItem id r) now
              (configLeaseDurationMilliseconds cfg))
            (updateExistingLockNewLock cfg (lockFromItem id r) data now rvn)] } := by
  have h1 := updateExistingLock_transport cfg (tableInsert locks id (lockFromItem id r)) remW
    (lockFromItem id r) data now rvn
  simp only [Acquire, getLock_some locks hrem]
  rw [if_neg (by simp [hexp])]
  rw [h1]
  rfl

theorem Heartbeat_notFound (cfg : DynamoDBLockConfig) (locks remote : Table) (id : String)
    (mnd : Option String) (nowA now : Int) (rvn : String) (tf : Bool)
    (h : locks id = none) :
    Heartbeat cfg locks remote id mnd nowA now rvn tf =
      { locks := locks, remote := remote, errs := [.notFound], requests := [] } := by
  simp only [Heartbeat, h]

theorem Heartbeat_abandoned (cfg : DynamoDBLockConfig) (locks remote : Table) (id : String)
    (mnd : Option String) (nowA now : Int) (rvn : String) (tf : Bool) (l : Lock)
    (h : locks id = some l)
    (hab : l.CreatedAtMilliseconds < nowA - abandonLockAfterMilliseconds) :
    Heartbeat cfg locks remote id mnd nowA now rvn tf =
      { locks := locks, remote := remote, errs := [.abandoned], requests := [] } := by
  simp only [Heartbeat, h]
  rw [if_pos hab]

theorem Heartbeat_success (cfg : DynamoDBLockConfig) (locks remote : Table) (id : String)
    (mnd : Option String) (nowA now : Int) (rvn : String) (l : Lock)
    (h : locks id = some l)
    (hab : ¬ l.CreatedAtMilliseconds < nowA - abandonLockAfterMilliseconds)
    (hc : evalCondExpr (remote l.ID)
      (updateExistingLockCondition l now (configLeaseDurationMilliseconds cfg)) = true) :
    Heartbeat cfg locks remote id mnd nowA now rvn false =
      { locks := tableInsert locks l.ID
          (updateExistingLockNewLock cfg l (heartbeatNewData mnd l) now rvn)
        remote := tableInsert remote l.ID
          (updateExistingLockNewLock cfg l (heartbeatNewData mnd l) now rvn)
        errs := []
        requests := [StoreRequest.putItem l.ID
          (updateExistingLockCondition l now (configLeaseDurationMilliseconds cfg))
          (updateExistingLockNewLock cfg l (heartbeatNewData mnd l) now rvn)] } := by
  have h1 := updateExistingLock_success cfg locks remote l (heartbeatNewData mnd l) now rvn hc
  simp only [Heartbeat, h]
  rw [if_neg hab]
  rw [h1]

theorem Heartbeat_condFail (cfg : DynamoDBLockConfig) (locks remote : Table) (id : String)
    (mnd : Option String) (nowA now : Int) (rvn : String) (l : Lock)
    (h : locks id = some l)
    (hab : ¬ l.CreatedAtMilliseconds < nowA - abandonLockAfterMilliseconds)
    (hc : evalCondExpr (remote l.ID)
      (updateExistingLockCondition l now (configLeaseDurationMilliseconds cfg)) = false) :
    Heartbeat cfg locks remote id mnd nowA now rvn false =
      { locks := tableErase locks id
        remote := remote
        errs := [.currentlyUnavailable]
        requests := [StoreRequest.putItem l.ID
          (updateExistingLockCondition l now (configLeaseDurationMilliseconds cfg))
          (updateExistingLockNewLock cfg l (heartbeatNewData mnd l) now rvn)] } := by
  have h1 := updateExistingLock_condFail cfg locks remote l (heartbeatNewData mnd l) now rvn hc
  simp only [Heartbeat, h]
  rw [if_neg hab]
  rw [h1]
  rfl

theorem Heartbeat_transport (cfg : DynamoDBLockConfig) (locks remote : Table) (id : String)
    (mnd : Option String) (nowA now : Int) (rvn : String) (l : Lock)
    (h : locks id = some l)
    (hab : ¬ l.CreatedAtMilliseconds < nowA - abandonLockAfterMilliseconds) :
    Heartbeat cfg locks remote id mnd nowA now rvn true =
      { locks := locks
        remote := remote
        errs := [.transportError, .heartbeatFailed]
        requests := [StoreRequest.putItem l.ID
          (updateExistingLockCondition l now (configLeaseDurationMilliseconds cfg))
          (updateExistingLockNewLock cfg l (heartbeatNewData mnd l) now rvn)] } := by
  have h1 := updateExistingLock_transport cfg locks remote l (heartbeatNewData mnd l) now rvn
  simp only [Heartbeat, h]
  rw [if_neg hab]
  rw [h1]
  rfl

theorem Release_notFound (cfg : DynamoDBLockConfig) (locks remote : Table) (id : String)
    (tf : Bool) (h : locks id = none) :
    Release cfg locks remote id tf =
      { locks := locks, remote := remote, errs := [.notFound], requests := [] } := by
  simp only [Release, h]

theorem Release_success (cfg : DynamoDBLockConfig) (locks remote : Table) (id : String)
    (l : Lock) (h : locks id = some l)
    (hc : evalCondExpr (remote l.ID) (releaseLockCondition cfg l) = true) :
    Release cfg locks remote id false =
      { locks := tableErase locks l.ID
        remote := tableErase remote l.ID
        errs := []
        requests := [StoreRequest.deleteItem l.ID (releaseLockCondition cfg l)] } := by
  simp only [Release, h, releaseLock, Bool.false_eq_true, if_false, hc, if_true]

theorem Release_condFail (cfg : DynamoDBLockConfig) (locks remote : Table) (id : String)
    (l : Lock) (h : locks id = some l)
    (hc : evalCondExpr (remote l.ID) (releaseLockCondition cfg l) = false) :
    Release cfg locks remote id false =
      { locks := tableErase locks l.ID
        remote := remote
        errs := [.conditionalCheckFailed, .releaseFailed]
        requests := [StoreRequest.deleteItem l.ID (releaseLockCondition cfg l)] } := by
  simp only [Release, h, releaseLock, Bool.false_eq_true, if_false, hc]

theorem Release_transport (cfg : DynamoDBLockConfig) (locks remote : Table) (id : String)
    (l : Lock) (h : locks id = some l) :
    Release cfg locks remote id true =
      { locks := tableErase locks l.ID
        remote := remote
        errs := [.transportError, .releaseFailed]
        requests := [StoreRequest.deleteItem l.ID (releaseLockCondition cfg l)] } := by
  simp only [Release, h, releaseLock, if_true]

/-- Claim C1: for every acquire of an id whose remote record exists and is
expired, and for every heartbeat renewal, the single conditional-put predicate
sent to the store is: stored RecordVersionNumber equals the previously-read
record's RecordVersionNumber AND (stored Owner equals the previously-read
Owner OR (stored Owner differs from the previously-read Owner AND stored
LastUpdatedTimeMilliseconds < now_ms - lease_duration_ms)). -/
theorem updateExistingLock_single_cas_predicate :
    (∀ (s existingLock : Lock) (nowMs leaseMs : Int),
      evalCondExpr (some s) (updateExistingLockCondition existingLock nowMs leaseMs) =
        decide (s.RecordVersionNumber = existingLock.RecordVersionNumber ∧
          (s.Owner = existingLock.Owner ∨
            (s.Owner ≠ existingLock.Owner ∧
              s.LastUpdatedTimeMilliseconds < nowMs - leaseMs)))) ∧
    (∀ (cfg : DynamoDBLockConfig) (locks remR remW : Table) (id data : String)
        (now : Int) (rvn : String) (shard : Int) (tf : Bool) (r : Lock),
      remR id = some r → (lockFromItem id r).IsExpired now = true →
      ∃ item, (Acquire cfg locks remR remW id data now rvn shard tf).requests =
        [StoreRequest.getItem id,
         StoreRequest.putItem id
           (updateExistingLockCondition (lockFromItem id r) now
             (configLeaseDurationMilliseconds cfg)) item]) ∧
    (∀ (cfg : DynamoDBLockConfig) (locks rem : Table) (id : String)
        (mnd : Option String) (nowA now : Int) (rvn : String) (tf : Bool) (l : Lock),
      locks id = some l →
      ¬ l.CreatedAtMilliseconds < nowA - abandonLockAfterMilliseconds →
      ∃ item, (Heartbeat cfg locks rem id mnd nowA now rvn tf).requests =
        [StoreRequest.putItem l.ID
          (updateExistingLockCondition l now (configLeaseDurationMilliseconds cfg)) item]) := by
  refine ⟨evalCondExpr_updateCondition, ?_, ?_⟩
  · intro cfg locks remR remW id data now rvn shard tf r hrem hexp
    refine ⟨updateExistingLockNewLock cfg (lockFromItem id r) data now rvn, ?_⟩
    cases tf with
    | true =>
      rw [Acquire_expired_transport cfg locks remR remW id data now rvn shard r hrem hexp]
    | false =>
      cases hc : evalCondExpr (remW id)
          (updateExistingLockCondition (lockFromItem id r) now
            (configLeaseDurationMilliseconds cfg)) with
      | true =>
        rw [Acquire_expired_success cfg locks remR remW id data now rvn shard r hrem hexp hc]
      | false =>
        rw [Acquire_expired_condFail cfg locks remR remW id data now rvn shard r hrem hexp hc]
  · intro cfg locks rem id mnd nowA now rvn tf l hloc hab
    refine ⟨updateExistingLockNewLock cfg l (heartbeatNewData mnd l) now rvn, ?_⟩
    cases tf with
    | true =>
      rw [Heartbeat_transport cfg locks rem id mnd nowA now rvn l hloc hab]
    | false =>
      cases hc : evalCondExpr (rem l.ID)
          (updateExistingLockCondition l now (configLeaseDurationMilliseconds cfg)) with
      | true =>
        rw [Heartbeat_success cfg locks rem id mnd nowA now rvn l hloc hab hc]
      | false =>
        rw [Heartbeat_condFail cfg locks rem id mnd nowA now rvn l hloc hab hc]

theorem updateExistingLock_single_cas_predicate_witness :
    (∃ item, (Acquire cfgA emptyT remB remB "job-1" "x" 15000 "v2" 0 false).requests =
      [StoreRequest.getItem "job-1",
       StoreRequest.putItem "job-1"
         (updateExistingLockCondition (lockFromItem "job-1" recB) 15000
           (configLeaseDurationMilliseconds cfgA)) item]) ∧
    (∃ item, (Heartbeat cfgA regA remB "job-1" none 1000 1000 "v2" false).requests =
      [StoreRequest.putItem recA.ID
        (updateExistingLockCondition recA 1000 (configLeaseDurationMilliseconds cfgA)) item]) :=
  ⟨updateExistingLock_single_cas_predicate.2.1 cfgA emptyT remB remB "job-1" "x" 15000 "v2" 0
      false recB (by decide) (by decide),
   updateExistingLock_single_cas_predicate.2.2 cfgA regA remB "job-1" none 1000 1000 "v2"
      false recA (by decide) (by decide)⟩

/-- Claim C2: for every remote record R and every local time now_ms, the
expiry test used by acquire holds iff
now_ms - R.LastUpdatedTimeMilliseconds > R.LeaseDurationMilliseconds; and in a
run without concurrent interference or transport failures, acquire reports
unavailability exactly when a record exists and this predicate is false. -/
theorem acquire_refuses_iff_live_lease :
    (∀ (R : Lock) (nowMs : Int),
      R.IsExpired nowMs = true ↔
        nowMs - R.LastUpdatedTimeMilliseconds > R.LeaseDurationMilliseconds) ∧
    (∀ (cfg : DynamoDBLockConfig) (locks remote : Table) (id data : String)
        (now : Int) (rvn : String) (shard : Int),
      (Acquire cfg locks remote remote id data now rvn shard false).err =
          some .currentlyUnavailable ↔
        ∃ r, remote id = some r ∧ (lockFromItem id r).IsExpired now = false) := by
  constructor
  · intro R nowMs
    simp [Lock.IsExpired]
  · intro cfg locks remote id data now rvn shard
    cases hrem : remote id with
    | none =>
      rw [Acquire_absent_success cfg locks remote remote id data now rvn shard hrem hrem]
      simp [hrem]
    | some r =>
      cases hexp : (lockFromItem id r).IsExpired now with
      | false =>
        rw [Acquire_live cfg locks remote remote id data now rvn shard false r hrem hexp]
        exact iff_of_true rfl ⟨r, rfl, hexp⟩
      | true =>
        have hc : evalCondExpr (remote id)
            (updateExistingLockCondition (lockFromItem id r) now
              (configLeaseDurationMilliseconds cfg)) = true := by
          rw [hrem]
          exact evalCondExpr_updateCondition_self r id now _
        rw [Acquire_expired_success cfg locks remote remote id data now rvn shard r hrem hexp hc]
        constructor
        · intro h
          simp at h
        · rintro ⟨r', hr', hexp'⟩
          cases hr'
          rw [hexp] at hexp'
          cases hexp'

/-- A remote record for `"job-1"` held by `"B"` whose record version `"v9"`
differs from the locally cached `"v1"`: a heartbeat or release CAS against it
fails. -/
def recB9 : Lock := NewLock "job-1" "B" 10000 0 "v9" 1 100 0 "d"

/-- A remote table holding `recB9` under `"job-1"`. -/
def remB9 : Table := fun x => if x = "job-1" then some recB9 else none

/-- A remote table holding A's own record `recA` under `"job-1"` (matching the
local registry `regA`). -/
def remA : Table := fun x => if x = "job-1" then some recA else none

/-- Claim C3: for every heartbeat(id) processed at a tick where a local
registry entry exists and its CreatedAtMilliseconds is older than the
abandonment threshold (300000 ms), the heartbeat removes the local registry
entry for id, reports ABANDONED, and issues no remote write for id (the remote
record is left unchanged). -/
theorem heartbeat_abandon_evicts_without_remote_write :
    abandonLockAfterMilliseconds = 300000 ∧
    ∀ (cfg : DynamoDBLockConfig) (locks remote : Table) (id : String) (l : Lock)
      (nowA now : Int) (rvn : String) (tf : Bool),
      locks id = some l →
      l.CreatedAtMilliseconds < nowA - abandonLockAfterMilliseconds →
      (heartbeatTickForLock cfg locks remote id nowA now rvn tf).locks id = none ∧
      (Heartbeat cfg locks remote id none nowA now rvn tf).errs = [.abandoned] ∧
      (heartbeatTickForLock cfg locks remote id nowA now rvn tf).remote = remote ∧
      (heartbeatTickForLock cfg locks remote id nowA now rvn tf).requests = [] := by
  refine ⟨rfl, ?_⟩
  intro cfg locks remote id l nowA now rvn tf hloc hab
  have hH := Heartbeat_abandoned cfg locks remote id none nowA now rvn tf l hloc hab
  refine ⟨?_, ?_, ?_, ?_⟩ <;>
    simp [heartbeatTickForLock, hH, tableErase]

theorem heartbeat_abandon_evicts_without_remote_write_witness :
    (heartbeatTickForLock cfgA regA remB "job-1" 300001 300001 "v2" false).locks "job-1" =
        none ∧
    (Heartbeat cfgA regA remB "job-1" none 300001 300001 "v2" false).errs = [.abandoned] ∧
    (heartbeatTickForLock cfgA regA remB "job-1" 300001 300001 "v2" false).remote = remB ∧
    (heartbeatTickForLock cfgA regA remB "job-1" 300001 300001 "v2" false).requests = [] :=
  heartbeat_abandon_evicts_without_remote_write.2 cfgA regA remB "job-1" recA 300001 300001
    "v2" false (by decide) (by decide)

/-- Claim C4 (counterexample to the claim as stated): read finds no record,
the conditional put races with a writer who created `"job-1"` first; the
result is the raw conditional-check-failed storage error, NOT UNAVAILABLE. -/
theorem acquire_raced_put_raw_error_counterexample :
    (Acquire cfgA emptyT emptyT remB "job-1" "x" 5000 "v2" 1 false).err =
        some .conditionalCheckFailed ∧
    (Acquire cfgA emptyT emptyT remB "job-1" "x" 5000 "v2" 1 false).err ≠
        some .currentlyUnavailable := by
  decide

/-- Claim C4 (amended): for every acquire(id, payload) where the
strong-consistency read finds no record, the manager performs a
conditional-put predicated on key non-existence; if that put fails its
precondition (a concurrent writer created the key first), acquire surfaces the
store's raw conditional-check-failed error (a storage error), not UNAVAILABLE,
and returns no lock. -/
theorem acquire_absent_put_not_exists_raced_storage_error :
    ∀ (cfg : DynamoDBLockConfig) (locks remR remW : Table) (id data : String)
      (now : Int) (rvn : String) (shard : Int) (s : Lock),
      remR id = none →
      (Acquire cfg locks remR remW id data now rvn shard false).requests =
        [StoreRequest.getItem id, StoreRequest.putItem id putNewLockCondition
          (putNewLockRecord cfg id data now rvn shard)] ∧
      (remW id = some s →
        (Acquire cfg locks remR remW id data now rvn shard false).err =
          some .conditionalCheckFailed ∧
        (Acquire cfg locks remR remW id data now rvn shard false).err ≠
          some .currentlyUnavailable ∧
        (Acquire cfg locks remR remW id data now rvn shard false).lock = none) := by
  intro cfg locks remR remW id data now rvn shard s hrem
  constructor
  · cases hw : remW id with
    | none =>
      rw [Acquire_absent_success cfg locks remR remW id data now rvn shard hrem hw]
    | some t =>
      rw [Acquire_absent_raced cfg locks remR remW id data now rvn shard t hrem hw]
  · intro hw
    rw [Acquire_absent_raced cfg locks remR remW id data now rvn shard s hrem hw]
    exact ⟨rfl, by simp, rfl⟩

theorem acquire_absent_put_not_exists_raced_storage_error_witness :
    (Acquire cfgA emptyT emptyT remB "job-1" "x" 5000 "v2" 1 false).err =
        some .conditionalCheckFailed ∧
    (Acquire cfgA emptyT emptyT remB "job-1" "x" 5000 "v2" 1 false).err ≠
        some .currentlyUnavailable ∧
    (Acquire cfgA emptyT emptyT remB "job-1" "x" 5000 "v2" 1 false).lock = none :=
  (acquire_absent_put_not_exists_raced_storage_error cfgA emptyT emptyT remB "job-1" "x"
    5000 "v2" 1 recB (by decide)).2 (by decide)

/-- Claim C5 (code behaviour at the failing input): process A acquires
`"job-1"` while B holds a live lease; acquire reports UNAVAILABLE, yet the
local registry now contains B's record for `"job-1"` — `getLock` cached the
read record even though the acquire failed. -/
theorem acquire_unavailable_caches_foreign_record :
    (Acquire cfgA emptyT remB remB "job-1" "" 1000 "v2" 0 false).err =
        some .currentlyUnavailable ∧
    (Acquire cfgA emptyT remB remB "job-1" "" 1000 "v2" 0 false).locks "job-1" =
        some (lockFromItem "job-1" recB) ∧
    (lockFromItem "job-1" recB).Owner = "B" ∧
    cfgA.Owner = "A" ∧
    emptyT "job-1" = none := by
  decide

/-- Claim C6: for every heartbeat(id) whose conditional-put fails its
precondition, heartbeat removes the local registry entry for id and reports
UNAVAILABLE; no other error kind removes the local entry on heartbeat. -/
theorem heartbeat_cas_failure_evicts_reports_unavailable :
    ∀ (cfg : DynamoDBLockConfig) (locks remote : Table) (id : String)
      (mnd : Option String) (nowA now : Int) (rvn : String) (l : Lock),
      locks id = some l →
      (¬ l.CreatedAtMilliseconds < nowA - abandonLockAfterMilliseconds →
        evalCondExpr (remote l.ID)
          (updateExistingLockCondition l now (configLeaseDurationMilliseconds cfg)) =
            false →
        (Heartbeat cfg locks remote id mnd nowA now rvn false).locks id = none ∧
        (Heartbeat cfg locks remote id mnd nowA now rvn false).errs =
          [.currentlyUnavailable]) ∧
      (∀ tf, (Heartbeat cfg locks remote id mnd nowA now rvn tf).errs ≠ [] →
        LockError.currentlyUnavailable ∉
          (Heartbeat cfg locks remote id mnd nowA now rvn tf).errs →
        (Heartbeat cfg locks remote id mnd nowA now rvn tf).locks id = locks id) := by
  intro cfg locks remote id mnd nowA now rvn l hloc
  constructor
  · intro hab hc
    rw [Heartbeat_condFail cfg locks remote id mnd nowA now rvn l hloc hab hc]
    exact ⟨by simp [tableErase], rfl⟩
  · intro tf hne hnu
    by_cases hab : l.CreatedAtMilliseconds < nowA - abandonLockAfterMilliseconds
    · rw [Heartbeat_abandoned cfg locks remote id mnd nowA now rvn tf l hloc hab]
    · cases tf with
      | true =>
        rw [Heartbeat_transport cfg locks remote id mnd nowA now rvn l hloc hab]
      | false =>
        cases hc : evalCondExpr (remote l.ID)
            (updateExistingLockCondition l now (configLeaseDurationMilliseconds cfg)) with
        | true =>
          rw [Heartbeat_success cfg locks remote id mnd nowA now rvn l hloc hab hc] at hne
          simp at hne
        | false =>
          rw [Heartbeat_condFail cfg locks remote id mnd nowA now rvn l hloc hab hc] at hnu
          simp at hnu

theorem heartbeat_cas_failure_evicts_reports_unavailable_witness :
    (Heartbeat cfgA regA remB9 "job-1" none 1000 1000 "v2" false).locks "job-1" = none ∧
    (Heartbeat cfgA regA remB9 "job-1" none 1000 1000 "v2" false).errs =
      [.currentlyUnavailable] :=
  (heartbeat_cas_failure_evicts_reports_unavailable cfgA regA remB9 "job-1" none 1000 1000
    "v2" recA (by decide)).1 (by decide) (by decide)

/-- Claim C7: for every release(id): if no local registry entry exists it
returns NOT_FOUND without any remote call; otherwise it removes the local
entry first and then issues the conditional delete, and a failing remote
delete surfaces as a release-failed error while the local eviction is not
undone. -/
theorem release_local_eviction_first :
    ∀ (cfg : DynamoDBLockConfig) (locks remote : Table) (id : String) (tf : Bool),
      (locks id = none →
        (Release cfg locks remote id tf).errs = [.notFound] ∧
        (Release cfg locks remote id tf).requests = [] ∧
        (Release cfg locks remote id tf).remote = remote ∧
        (Release cfg locks remote id tf).locks = locks) ∧
      (∀ l, locks id = some l → l.ID = id →
        (Release cfg locks remote id tf).locks id = none ∧
        (Release cfg locks remote id tf).requests =
          [StoreRequest.deleteItem id (releaseLockCondition cfg l)] ∧
        ((tf = true ∨
            evalCondExpr (remote id) (releaseLockCondition cfg l) = false) →
          LockError.releaseFailed ∈ (Release cfg locks remote id tf).errs ∧
          (Release cfg locks remote id tf).locks id = none)) := by
  intro cfg locks remote id tf
  constructor
  · intro hloc
    rw [Release_notFound cfg locks remote id tf hloc]
    exact ⟨rfl, rfl, rfl, rfl⟩
  · intro l hloc hid
    subst hid
    cases tf with
    | true =>
      rw [Release_transport cfg locks remote l.ID l hloc]
      refine ⟨by simp [tableErase], rfl, ?_⟩
      intro _
      exact ⟨by simp, by simp [tableErase]⟩
    | false =>
      cases hc : evalCondExpr (remote l.ID) (releaseLockCondition cfg l) with
      | true =>
        rw [Release_success cfg locks remote l.ID l hloc hc]
        refine ⟨by simp [tableErase], rfl, ?_⟩
        rintro (h | h)
        · cases h
        · simp at h
      | false =>
        rw [Release_condFail cfg locks remote l.ID l hloc hc]
        refine ⟨by simp [tableErase], rfl, ?_⟩
        intro _
        exact ⟨by simp, by simp [tableErase]⟩

theorem release_local_eviction_first_witness :
    (LockError.releaseFailed ∈ (Release cfgA regA remB9 "job-1" false).errs ∧
      (Release cfgA regA remB9 "job-1" false).locks "job-1" = none) ∧
    (Release cfgA emptyT remB9 "job-1" false).errs = [.notFound] ∧
    (Release cfgA emptyT remB9 "job-1" false).requests = [] :=
  ⟨((release_local_eviction_first cfgA regA remB9 "job-1" false).2 recA (by decide)
      (by decide)).2.2 (Or.inr (by decide)),
   ((release_local_eviction_first cfgA emptyT remB9 "job-1" false).1 (by decide)).1,
   ((release_local_eviction_first cfgA emptyT remB9 "job-1" false).1 (by decide)).2.1⟩

/-- Claim C8 (counterexample to the claim as stated): process A steals
`"job-1"` from B at t = 15000 (B's record was written at 0 with a 10000 ms
lease); the steal succeeds but the written record's CreatedAtMilliseconds is
0 — copied from the stolen record — not 15000, the time of the steal. -/
theorem steal_created_at_counterexample :
    (Acquire cfgA emptyT remB remB "job-1" "x" 15000 "v2" 0 false).err = none ∧
    ((Acquire cfgA emptyT remB remB "job-1" "x" 15000 "v2" 0 false).lock.map
        Lock.CreatedAtMilliseconds) = some 0 ∧
    ((Acquire cfgA emptyT remB remB "job-1" "x" 15000 "v2" 0 false).lock.map
        Lock.CreatedAtMilliseconds) ≠ some 15000 ∧
    recB.Owner ≠ cfgA.Owner ∧
    recB.LastUpdatedTimeMilliseconds = 0 ∧
    recB.LeaseDurationMilliseconds = 10000 := by
  decide

/-- Claim C8 (amended): for every successful steal (acquire at a time when the
existing record, owned by a different process, is expired), the written record
has the new caller's owner, the freshly generated record_version (different
from the one read whenever the generator is fresh), the shard copied unchanged
from the existing record, and CreatedAtMilliseconds copied unchanged from the
existing record (NOT reset to the time of the steal). -/
theorem steal_new_owner_version_shard_created_at_preserved :
    ∀ (cfg : DynamoDBLockConfig) (locks remR remW : Table) (id data : String)
      (now : Int) (rvn : String) (shard : Int) (r : Lock),
      remR id = some r →
      r.Owner ≠ cfg.Owner →
      rvn ≠ r.RecordVersionNumber →
      (lockFromItem id r).IsExpired now = true →
      evalCondExpr (remW id)
        (updateExistingLockCondition (lockFromItem id r) now
          (configLeaseDurationMilliseconds cfg)) = true →
      (Acquire cfg locks remR remW id data now rvn shard false).err = none ∧
      ((Acquire cfg locks remR remW id data now rvn shard false).lock.map Lock.Owner) =
        some cfg.Owner ∧
      ((Acquire cfg locks remR remW id data now rvn shard false).lock.map
        Lock.RecordVersionNumber) = some rvn ∧
      ((Acquire cfg locks remR remW id data now rvn shard false).lock.map
        Lock.RecordVersionNumber) ≠ some r.RecordVersionNumber ∧
      ((Acquire cfg locks remR remW id data now rvn shard false).lock.map Lock.Shard) =
        some r.Shard ∧
      ((Acquire cfg locks remR remW id data now rvn shard false).lock.map
        Lock.CreatedAtMilliseconds) = some r.CreatedAtMilliseconds := by
  intro cfg locks remR remW id data now rvn shard r hrem hown hrvn hexp hc
  rw [Acquire_expired_success cfg locks remR remW id data now rvn shard r hrem hexp hc]
  refine ⟨rfl, rfl, rfl, ?_, rfl, rfl⟩
  intro h
  simp [updateExistingLockNewLock, NewLock] at h
  exact hrvn h

theorem steal_new_owner_version_shard_created_at_preserved_witness :
    (Acquire cfgA emptyT remB remB "job-1" "x" 15000 "v2" 0 false).err = none ∧
    ((Acquire cfgA emptyT remB remB "job-1" "x" 15000 "v2" 0 false).lock.map Lock.Owner) =
      some cfgA.Owner ∧
    ((Acquire cfgA emptyT remB remB "job-1" "x" 15000 "v2" 0 false).lock.map
      Lock.RecordVersionNumber) = some "v2" ∧
    ((Acquire cfgA emptyT remB remB "job-1" "x" 15000 "v2" 0 false).lock.map
      Lock.RecordVersionNumber) ≠ some recB.RecordVersionNumber ∧
    ((Acquire cfgA emptyT remB remB "job-1" "x" 15000 "v2" 0 false).lock.map Lock.Shard) =
      some recB.Shard ∧
    ((Acquire cfgA emptyT remB remB "job-1" "x" 15000 "v2" 0 false).lock.map
      Lock.CreatedAtMilliseconds) = some recB.CreatedAtMilliseconds :=
  steal_new_owner_version_shard_created_at_preserved cfgA emptyT remB remB "job-1" "x"
    15000 "v2" 0 recB (by decide) (by decide) (by decide) (by decide) (by decide)

/-- Claim C9: every successful write (fresh put, steal, or heartbeat renewal)
produces a record satisfying TTLEpochSeconds ≥
LastUpdatedTimeMilliseconds/1000 + 10 × lease_duration_s (integer
arithmetic), and a successful heartbeat's new LastUpdatedTimeMilliseconds is
strictly greater than the old one, assuming the clock advanced. -/
theorem successful_writes_ttl_bound_and_heartbeat_advances :
    (∀ (cfg : DynamoDBLockConfig) (id data : String) (now : Int) (rvn : String)
        (shard : Int), 0 ≤ now →
      (putNewLockRecord cfg id data now rvn shard).TTLEpochSeconds ≥
        (putNewLockRecord cfg id data now rvn shard).LastUpdatedTimeMilliseconds / 1000 +
          10 * cfg.LeaseDurationSeconds) ∧
    (∀ (cfg : DynamoDBLockConfig) (l : Lock) (data : String) (now : Int) (rvn : String),
      0 ≤ now →
      (updateExistingLockNewLock cfg l data now rvn).TTLEpochSeconds ≥
        (updateExistingLockNewLock cfg l data now rvn).LastUpdatedTimeMilliseconds / 1000 +
          10 * cfg.LeaseDurationSeconds) ∧
    (∀ (cfg : DynamoDBLockConfig) (locks remote : Table) (id : String)
        (mnd : Option String) (nowA now : Int) (rvn : String) (l : Lock),
      locks id = some l →
      (Heartbeat cfg locks remote id mnd nowA now rvn false).errs = [] →
      (Heartbeat cfg locks remote id mnd nowA now rvn false).locks l.ID =
        some (updateExistingLockNewLock cfg l (heartbeatNewData mnd l) now rvn) ∧
      (updateExistingLockNewLock cfg l (heartbeatNewData mnd l) now
        rvn).LastUpdatedTimeMilliseconds = now ∧
      (l.LastUpdatedTimeMilliseconds < now →
        (updateExistingLockNewLock cfg l (heartbeatNewData mnd l) now
          rvn).LastUpdatedTimeMilliseconds > l.LastUpdatedTimeMilliseconds)) := by
  refine ⟨?_, ?_, ?_⟩
  · intro cfg id data now rvn shard hnow
    simp only [putNewLockRecord, NewLock, ge_iff_le]
    omega
  · intro cfg l data now rvn hnow
    simp only [updateExistingLockNewLock, NewLock, configLeaseDurationMilliseconds,
      ge_iff_le]
    omega
  · intro cfg locks remote id mnd nowA now rvn l hloc herr
    by_cases hab : l.CreatedAtMilliseconds < nowA - abandonLockAfterMilliseconds
    · rw [Heartbeat_abandoned cfg locks remote id mnd nowA now rvn false l hloc hab] at herr
      simp at herr
    · cases hc : evalCondExpr (remote l.ID)
          (updateExistingLockCondition l now (configLeaseDurationMilliseconds cfg)) with
      | false =>
        rw [Heartbeat_condFail cfg locks remote id mnd nowA now rvn l hloc hab hc] at herr
        simp at herr
      | true =>
        rw [Heartbeat_success cfg locks remote id mnd nowA now rvn l hloc hab hc]
        refine ⟨by simp [tableInsert], rfl, ?_⟩
        intro h
        simpa [updateExistingLockNewLock, NewLock] using h

theorem successful_writes_ttl_bound_and_heartbeat_advances_witness :
    ((putNewLockRecord cfgA "job-1" "x" 5000 "v2" 1).TTLEpochSeconds ≥
      (putNewLockRecord cfgA "job-1" "x" 5000 "v2" 1).LastUpdatedTimeMilliseconds / 1000 +
        10 * cfgA.LeaseDurationSeconds) ∧
    ((updateExistingLockNewLock cfgA recA "x" 5000 "v2").TTLEpochSeconds ≥
      (updateExistingLockNewLock cfgA recA "x" 5000 "v2").LastUpdatedTimeMilliseconds /
        1000 + 10 * cfgA.LeaseDurationSeconds) ∧
    ((Heartbeat cfgA regA remA "job-1" none 1000 1000 "v2" false).locks recA.ID =
      some (updateExistingLockNewLock cfgA recA (heartbeatNewData none recA) 1000 "v2") ∧
    (updateExistingLockNewLock cfgA recA (heartbeatNewData none recA) 1000
      "v2").LastUpdatedTimeMilliseconds = 1000 ∧
    (recA.LastUpdatedTimeMilliseconds < 1000 →
      (updateExistingLockNewLock cfgA recA (heartbeatNewData none recA) 1000
        "v2").LastUpdatedTimeMilliseconds > recA.LastUpdatedTimeMilliseconds)) :=
  ⟨successful_writes_ttl_bound_and_heartbeat_advances.1 cfgA "job-1" "x" 5000 "v2" 1
      (by decide),
   successful_writes_ttl_bound_and_heartbeat_advances.2.1 cfgA recA "x" 5000 "v2"
      (by decide),
   successful_writes_ttl_bound_and_heartbeat_advances.2.2 cfgA regA remA "job-1" none
      1000 1000 "v2" recA (by decide) (by decide)⟩

/-- Claim C10: for every acquire(id) where the remote record exists and is not
expired, acquire returns the existing holder's record as a non-nil result
alongside the unavailability error: the refused caller observes the current
holder's owner, record version and lease fields. -/
theorem acquire_live_returns_holder_record :
    ∀ (cfg : DynamoDBLockConfig) (locks remR remW : Table) (id data : String)
      (now : Int) (rvn : String) (shard : Int) (tf : Bool) (r : Lock),
      remR id = some r →
      (lockFromItem id r).IsExpired now = false →
      (Acquire cfg locks remR remW id data now rvn shard tf).lock =
        some (lockFromItem id r) ∧
      (Acquire cfg locks remR remW id data now rvn shard tf).err =
        some .currentlyUnavailable ∧
      (lockFromItem id r).Owner = r.Owner ∧
      (lockFromItem id r).RecordVersionNumber = r.RecordVersionNumber ∧
      (lockFromItem id r).LeaseDurationMilliseconds = r.LeaseDurationMilliseconds ∧
      (lockFromItem id r).LastUpdatedTimeMilliseconds = r.LastUpdatedTimeMilliseconds := by
  intro cfg locks remR remW id data now rvn shard tf r hrem hexp
  rw [Acquire_live cfg locks remR remW id data now rvn shard tf r hrem hexp]
  exact ⟨rfl, rfl, rfl, rfl, rfl, rfl⟩

theorem acquire_live_returns_holder_record_witness :
    (Acquire cfgA emptyT remB remB "job-1" "" 1000 "v2" 0 false).lock =
      some (lockFromItem "job-1" recB) ∧
    (Acquire cfgA emptyT remB remB "job-1" "" 1000 "v2" 0 false).err =
      some .currentlyUnavailable ∧
    (lockFromItem "job-1" recB).Owner = recB.Owner ∧
    (lockFromItem "job-1" recB).RecordVersionNumber = recB.RecordVersionNumber ∧
    (lockFromItem "job-1" recB).LeaseDurationMilliseconds =
      recB.LeaseDurationMilliseconds ∧
    (lockFromItem "job-1" recB).LastUpdatedTimeMilliseconds =
      recB.LastUpdatedTimeMilliseconds :=
  acquire_live_returns_holder_record cfgA emptyT remB remB "job-1" "" 1000 "v2" 0 false
    recB (by decide) (by decide)
